import Mathlib

/-!
Verification development for the pr-round-table multi-agent code-review
orchestrator.

The development shallowly embeds the parts of the program that the checked
properties are about:

* `GitTools.get_diff`, `GitTools.get_branches`, `GitTools.get_changed_files`
  from `src/tools/git_tools.py` (the LangGraph copies in
  `src/langgraph_impl/tools.py` are textually identical);
* `FileTools.read_file`, `FileTools.find_file` from `src/tools/file_tools.py`
  and their independent LangGraph twins `LG.read_file`, `LG.find_file` from
  `src/langgraph_impl/tools.py`;
* the reviewer sub-agent tools `LG.quality_review`, `LG.security_review`
  from `src/langgraph_impl/tools.py`;
* the graph nodes `tool_node`, `should_continue` and the judge/tools loop
  from `src/langgraph_impl/graph.py`.

Python side effects are made explicit: every tool returns its textual result
paired with the list of `Effect`s it performed (subprocess git invocations,
path canonicalizations, stat calls, file reads, directory walks, model
calls).  The ambient operating system and model are an abstract `World` of
oracles; a `writeEffect` constructor exists in the effect language so that
"no action mutates the repository" is a real statement about the emitted
traces, not a vacuity of the type.

Python `str` maps to Lean `String`; `s.startswith(p)` maps to prefix of the
underlying character lists, `s.strip()` to `String.trim`, exceptions to
`Except String`.
-/

/-- A message sent to the underlying language model: either a system prompt
or a human turn (the only shapes the reviewer sub-agents build). -/
inductive LMsg where
  | system (content : String)
  | human (content : String)
deriving DecidableEq, Repr

/-- One observable side effect of a tool execution.  `gitQuery` is a
`subprocess.run` of the given argument vector, `realpathQuery` an
`os.path.realpath`, `statQuery` an `os.path.isfile`/`os.path.getsize`,
`readQuery` an `open(..., "r").read()`, `walkQuery` an `os.walk`,
`modelCall` an LLM invocation.  `writeEffect` is any filesystem or git
mutation; it is expressible so that frame properties are non-trivial. -/
inductive Effect where
  | gitQuery (args : List String)
  | realpathQuery (p : String)
  | statQuery (p : String)
  | readQuery (p : String)
  | walkQuery (p : String)
  | modelCall (msgs : List LMsg)
  | writeEffect (p : String)
deriving DecidableEq, Repr

/-- Whether an effect can change the repository state.  `git diff` and
`git branch` are read-only git queries; any other git subcommand is
conservatively treated as mutating, as is an explicit `writeEffect`.
The remaining effects are pure filesystem/model queries. -/
def Effect.mutatesRepo : Effect → Bool
  | .gitQuery args =>
    match args with
    | "git" :: sub :: _ => !(sub = "diff" || sub = "branch")
    | _ => true
  | .writeEffect _ => true
  | _ => false

/-- Whether an effect reads the contents of a file (the `open`/`read` in
`read_file`). -/
def Effect.isRead : Effect → Bool
  | .readQuery _ => true
  | _ => false

/-- A directory tree: the filesystem as seen by `os.walk` (name of the
directory, subdirectories, plain file names). -/
inductive DirTree where
  | node (name : String) (subdirs : List DirTree) (files : List String)
deriving Repr

/-- The name of the directory at the root of a tree. -/
def DirTree.name : DirTree → String
  | .node n _ _ => n

/-- The ambient world the tools run against: oracles for subprocess
invocations (`ok` is captured stdout, `error` is the stderr carried by a
`CalledProcessError`), path canonicalization, file metadata, file reads
(UTF-8 decoded with invalid bytes replaced; `error` is an I/O exception),
the directory tree visible to `os.walk`, and the reviewer model (`error`
is an exception raised by the model client). -/
structure World where
  run : List String → Except String String
  realpath : String → String
  isFile : String → Bool
  getsize : String → Nat
  readText : String → Except String String
  tree : DirTree
  model : List LMsg → Except String String

/-- Python `s.startswith(pre)`: `pre` is a prefix of `s`. -/
def pyStartsWith (s pre : String) : Bool :=
  pre.data.isPrefixOf s.data

/-- Python `s.endswith(suf)`: `suf` is a suffix of `s`. -/
def pyEndsWith (s suf : String) : Bool :=
  suf.data.isSuffixOf s.data

/-- POSIX `os.sep`. -/
def os_sep : String := "/"

/-- POSIX `os.path.join(a, b)`: an absolute second component discards the
first; otherwise the components are joined with a separator unless one is
already present. -/
def joinPath (a b : String) : String :=
  if pyStartsWith b "/" then b
  else if a = "" || pyEndsWith a "/" then a ++ b
  else a ++ "/" ++ b

namespace GitTools

/-- Embedding of `GitTools.get_diff` (src/tools/git_tools.py): run
`git diff target...source`; if the stripped stdout is empty report that no
differences were found, otherwise return stdout; a `CalledProcessError`
becomes an error string built from its stderr. -/
def get_diff (w : World) (source_branch target_branch : String) :
    String × List Effect :=
  let args := ["git", "diff", target_branch ++ "..." ++ source_branch]
  match w.run args with
  | .ok stdout =>
    (if stdout.trim = "" then "No differences found between branches."
     else stdout, [Effect.gitQuery args])
  | .error stderr => ("Error getting diff: " ++ stderr, [Effect.gitQuery args])

/-- Embedding of `GitTools.get_branches` (src/tools/git_tools.py). -/
def get_branches (w : World) : String × List Effect :=
  let args := ["git", "branch", "-a", "--format=%(refname:short)"]
  match w.run args with
  | .ok stdout => (stdout, [Effect.gitQuery args])
  | .error stderr =>
    ("Error listing branches: " ++ stderr, [Effect.gitQuery args])

/-- Embedding of `GitTools.get_changed_files` (src/tools/git_tools.py):
`result.stdout or "No files changed."` substitutes the message exactly when
stdout is the empty string (Python falsiness on `str`). -/
def get_changed_files (w : World) (source_branch target_branch : String) :
    String × List Effect :=
  let args :=
    ["git", "diff", "--name-only", target_branch ++ "..." ++ source_branch]
  match w.run args with
  | .ok stdout =>
    (if stdout = "" then "No files changed." else stdout,
     [Effect.gitQuery args])
  | .error stderr =>
    ("Error getting changed files: " ++ stderr, [Effect.gitQuery args])

end GitTools

/-- The 50 KiB size ceiling `MAX_FILE_SIZE = 50 * 1024` (defined with this
value in both `src/tools/file_tools.py` and `src/langgraph_impl/tools.py`). -/
def MAX_FILE_SIZE : Nat := 50 * 1024

/-- Join a repository-root-relative directory with a further name, as the
walk builds the `os.path.relpath` of a match inside the root. -/
def relJoin (rel name : String) : String :=
  if rel = "" then name else rel ++ "/" ++ name

mutual
/-- The `os.walk` loop of `find_file`, restricted to what it observes:
yield, in top-down depth-first order, the root-relative path
`rel/filename` for every visited directory whose file list contains
`filename`.  Subdirectories are pruned by the `keep` predicate before
descent (the in-place `dirnames[:]` filter); the walk's top directory
itself is never pruned.  `os.path.relpath(full, root)` for a path inside
the root is modeled by tracking the relative directory during the walk. -/
def walkFind (keep : String → Bool) (filename : String) (rel : String) :
    DirTree → List String
  | .node _ subdirs files =>
    (if files.contains filename then [relJoin rel filename] else []) ++
    walkFindList keep filename rel subdirs

/-- Walk each subdirectory in order, descending only into kept ones. -/
def walkFindList (keep : String → Bool) (filename : String) (rel : String) :
    List DirTree → List String
  | [] => []
  | t :: ts =>
    (if keep t.name then walkFind keep filename (relJoin rel t.name) t
     else []) ++ walkFindList keep filename rel ts
end

namespace FileTools

/-- The skipped-directory set of `src/tools/file_tools.py`. -/
def SKIP_DIRS : List String :=
  [".git", "node_modules", "__pycache__", ".build", ".venv", "venv",
   ".tox", "Pods", "DerivedData"]

/-- The pruning predicate `d not in SKIP_DIRS and not d.startswith(".")`. -/
def keepDir (d : String) : Bool :=
  !SKIP_DIRS.contains d && !pyStartsWith d "."

/-- Embedding of `FileTools.read_file` (src/tools/file_tools.py).
`repo_path` is the canonicalized repository root computed by `__init__`
(`os.path.realpath(repo_path)`).  The containment check is the source's
`not resolved.startswith(self.repo_path + os.sep) and resolved !=
self.repo_path`; the logger call has no observable effect and is omitted. -/
def read_file (w : World) (repo_path file_path : String) :
    String × List Effect :=
  let joined := joinPath repo_path file_path
  let resolved := w.realpath joined
  if !pyStartsWith resolved (repo_path ++ os_sep) && resolved != repo_path then
    ("Error: path '" ++ file_path ++ "' is outside the repository.",
     [Effect.realpathQuery joined])
  else if !w.isFile resolved then
    ("Error: file '" ++ file_path ++ "' not found.",
     [Effect.realpathQuery joined, Effect.statQuery resolved])
  else
    let size := w.getsize resolved
    if size > MAX_FILE_SIZE then
      ("Error: file '" ++ file_path ++ "' is too large (" ++ toString size ++
        " bytes, max " ++ toString MAX_FILE_SIZE ++ ").",
       [Effect.realpathQuery joined, Effect.statQuery resolved])
    else
      match w.readText resolved with
      | .ok text =>
        (text,
         [Effect.realpathQuery joined, Effect.statQuery resolved,
          Effect.readQuery resolved])
      | .error e =>
        ("Error reading file: " ++ e,
         [Effect.realpathQuery joined, Effect.statQuery resolved,
          Effect.readQuery resolved])

/-- Embedding of `FileTools.find_file` (src/tools/file_tools.py): walk the
repository from its root, pruning by `keepDir`, and collect relative paths
of directories containing `filename`; report when no match exists. -/
def find_file (w : World) (repo_path filename : String) :
    String × List Effect :=
  let found := walkFind keepDir filename "" w.tree
  (if found.isEmpty then
     "No files named '" ++ filename ++ "' found in the repository."
   else String.intercalate "\n" found,
   [Effect.walkQuery repo_path])

end FileTools

/-- The quality reviewer system prompt
(`QUALITY_REVIEWER_SYSTEM_PROMPT` in src/langgraph_impl/prompts.py). -/
def QUALITY_REVIEWER_SYSTEM_PROMPT : String :=
  "You are an expert code reviewer focused on code quality.\n" ++
  "The codebase is in Swift, the architecture is VIP, with an ongoing migration to MVVM.\n\n" ++
  "Analyze the diff and provide feedback on:\n" ++
  "- Code readability and clarity\n" ++
  "- Naming conventions (variables, functions, classes)\n" ++
  "- Code duplication (DRY principle violations)\n" ++
  "- Function/method complexity\n" ++
  "- Documentation and comments quality\n" ++
  "- Design patterns and architecture\n" ++
  "- Error handling practices\n\n" ++
  "Format your review as markdown with clear sections.\n" ++
  "Rate each issue as: Critical, High, Medium, or Low severity.\n" ++
  "Provide specific line references and suggested fixes.\n"

/-- The security reviewer system prompt
(`SECURITY_REVIEWER_SYSTEM_PROMPT` in src/langgraph_impl/prompts.py). -/
def SECURITY_REVIEWER_SYSTEM_PROMPT : String :=
  "You are an expert security and performance reviewer.\n" ++
  "The codebase is in Swift, the architecture is VIP, with an ongoing migration to MVVM.\n\n" ++
  "Analyze the diff and provide feedback on:\n" ++
  "- Security vulnerabilities (OWASP Top 10)\n" ++
  "- SQL injection, XSS, CSRF risks\n" ++
  "- Authentication/authorization issues\n" ++
  "- Sensitive data exposure\n" ++
  "- Input validation gaps\n" ++
  "- Performance bottlenecks\n" ++
  "- Memory management issues\n" ++
  "- Race conditions and concurrency problems\n" ++
  "- Resource leaks\n\n" ++
  "Format your review as markdown with clear sections.\n" ++
  "Rate each issue as: Critical, High, Medium, or Low severity.\n" ++
  "Provide specific line references and remediation steps.\n"

namespace LG

/-- The skipped-directory set of `src/langgraph_impl/tools.py` (an
independent copy of the one in `src/tools/file_tools.py`). -/
def SKIP_DIRS : List String :=
  [".git", "node_modules", "__pycache__", ".build", ".venv", "venv",
   ".tox", "Pods", "DerivedData"]

/-- The pruning predicate of the LangGraph `find_file`. -/
def keepDir (d : String) : Bool :=
  !SKIP_DIRS.contains d && !pyStartsWith d "."

/-- Embedding of the closure-based `read_file` created by `create_tools`
(src/langgraph_impl/tools.py).  `repo_path` is the captured
`real_repo_path = os.path.realpath(repo_path)`. -/
def read_file (w : World) (repo_path file_path : String) :
    String × List Effect :=
  let joined := joinPath repo_path file_path
  let resolved := w.realpath joined
  if !pyStartsWith resolved (repo_path ++ os_sep) && resolved != repo_path then
    ("Error: path '" ++ file_path ++ "' is outside the repository.",
     [Effect.realpathQuery joined])
  else if !w.isFile resolved then
    ("Error: file '" ++ file_path ++ "' not found.",
     [Effect.realpathQuery joined, Effect.statQuery resolved])
  else
    let size := w.getsize resolved
    if size > MAX_FILE_SIZE then
      ("Error: file '" ++ file_path ++ "' is too large (" ++ toString size ++
        " bytes, max " ++ toString MAX_FILE_SIZE ++ ").",
       [Effect.realpathQuery joined, Effect.statQuery resolved])
    else
      match w.readText resolved with
      | .ok text =>
        (text,
         [Effect.realpathQuery joined, Effect.statQuery resolved,
          Effect.readQuery resolved])
      | .error e =>
        ("Error reading file: " ++ e,
         [Effect.realpathQuery joined, Effect.statQuery resolved,
          Effect.readQuery resolved])

/-- Embedding of the closure-based `find_file` created by `create_tools`
(src/langgraph_impl/tools.py). -/
def find_file (w : World) (repo_path filename : String) :
    String × List Effect :=
  let found := walkFind keepDir filename "" w.tree
  (if found.isEmpty then
     "No files named '" ++ filename ++ "' found in the repository."
   else String.intercalate "\n" found,
   [Effect.walkQuery repo_path])

/-- Embedding of the `quality_review` tool (src/langgraph_impl/tools.py):
one model call with the fixed quality system prompt and the context as the
sole human message; an exception becomes a textual error result. -/
def quality_review (w : World) (context : String) : String × List Effect :=
  let msgs := [LMsg.system QUALITY_REVIEWER_SYSTEM_PROMPT,
               LMsg.human context]
  match w.model msgs with
  | .ok content => (content, [Effect.modelCall msgs])
  | .error e =>
    ("Error during quality review: " ++ e, [Effect.modelCall msgs])

/-- Embedding of the `security_review` tool (src/langgraph_impl/tools.py). -/
def security_review (w : World) (context : String) : String × List Effect :=
  let msgs := [LMsg.system SECURITY_REVIEWER_SYSTEM_PROMPT,
               LMsg.human context]
  match w.model msgs with
  | .ok content => (content, [Effect.modelCall msgs])
  | .error e =>
    ("Error during security review: " ++ e, [Effect.modelCall msgs])

end LG

/-- A tool call carried by an AI message (langchain `tool_call` dict):
name, arguments (opaque here), and the correlation id. -/
structure ToolCall where
  name : String
  args : String
  id : String
deriving DecidableEq, Repr

/-- A langchain `ToolMessage`: the observation appended for one tool call,
correlated by `tool_call_id`. -/
structure ToolMessage where
  content : String
  name : String
  tool_call_id : String
deriving DecidableEq, Repr

/-- A message in the graph's `MessagesState`: a user turn, an AI (judge)
turn carrying requested tool calls, or a tool observation. -/
inductive Message where
  | human (content : String)
  | ai (content : String) (tool_calls : List ToolCall)
  | toolMsg (m : ToolMessage)
deriving DecidableEq, Repr

/-- The `tool_calls` attribute of a message (empty on non-AI messages,
matching langchain where only `AIMessage` carries tool calls). -/
def Message.tool_calls : Message → List ToolCall
  | .ai _ tcs => tcs
  | _ => []

/-- The `str` of the `KeyError` raised by `tools_by_name[name]` for an
absent key: Python renders it as the repr of the key. -/
def keyErrorText (k : String) : String := "'" ++ k ++ "'"

/-- Embedding of `tool_node` (src/langgraph_impl/graph.py) applied to the
tool calls of the last message.  The registry `tools_by_name` maps a name
to its execution function (`none` models an unregistered name, whose
lookup raises `KeyError`); an execution function returns `.error e` when
the tool body or its argument validation raises.  Every failure is caught
by the `try`/`except` and becomes the content of an ordinary
`ToolMessage`; one output message is appended per tool call, in order. -/
def tool_node (tools_by_name : String → Option (String → Except String String))
    (tool_calls : List ToolCall) : List ToolMessage :=
  tool_calls.map (fun tc =>
    let result : String :=
      match tools_by_name tc.name with
      | none =>
        "Error executing tool '" ++ tc.name ++ "': " ++ keyErrorText tc.name
      | some tool_func =>
        match tool_func tc.args with
        | .ok r => r
        | .error e => "Error executing tool '" ++ tc.name ++ "': " ++ e
    { content := result, name := tc.name, tool_call_id := tc.id })

/-- The langgraph `END` sentinel. -/
def END : String := "__end__"

/-- Embedding of `should_continue` (src/langgraph_impl/graph.py): route to
the `tools` node when the last message carries tool calls (Python list
truthiness), otherwise to `END`. -/
def should_continue (last_message : Message) : String :=
  if !last_message.tool_calls.isEmpty then "tools" else END

/-- One round of the compiled graph, driven by an oracle for the judge
model: each oracle entry is the content and tool calls of one
`model_with_tools.invoke` response (the Reason step).  The loop appends
the judge message; if `should_continue` routes to `tools` it appends the
`tool_node` observations and reasons again, otherwise the round ends with
the accumulated history.  `none` means the oracle was exhausted while the
loop still wanted another Reason step: the graph is still cycling. -/
def driveLoop (tools_by_name : String → Option (String → Except String String))
    (oracle : List (String × List ToolCall)) (history : List Message) :
    Option (List Message) :=
  match oracle with
  | [] => none
  | (content, tcs) :: rest =>
    let h1 := history ++ [Message.ai content tcs]
    if should_continue (Message.ai content tcs) = "tools" then
      driveLoop tools_by_name rest
        (h1 ++ (tool_node tools_by_name tcs).map Message.toolMsg)
    else
      some h1

/-- A user round as `stream_response` submits it: append the user message
to the session history, then run the judge/tools loop to completion. -/
def runRound (tools_by_name : String → Option (String → Except String String))
    (oracle : List (String × List ToolCall)) (history : List Message)
    (user_text : String) : Option (List Message) :=
  driveLoop tools_by_name oracle (history ++ [Message.human user_text])

/-- Concrete world used to instantiate hypotheses at a path that
canonicalizes outside the repository root. -/
def wOutside : World where
  run := fun _ => Except.ok ""
  realpath := fun _ => "/etc/passwd"
  isFile := fun _ => true
  getsize := fun _ => 0
  readText := fun _ => Except.ok ""
  tree := DirTree.node "" [] []
  model := fun _ => Except.ok ""

/-- Concrete world holding a single oversized file at the repository root. -/
def wBig : World where
  run := fun _ => Except.ok ""
  realpath := fun s => s
  isFile := fun _ => true
  getsize := fun _ => 60000
  readText := fun _ => Except.ok "contents"
  tree := DirTree.node "" [] []
  model := fun _ => Except.ok ""

/-- Concrete world whose git oracle reports empty output for every
invocation (two branches with no differences). -/
def wSame : World where
  run := fun _ => Except.ok ""
  realpath := fun s => s
  isFile := fun _ => true
  getsize := fun _ => 0
  readText := fun _ => Except.ok ""
  tree := DirTree.node "" [] []
  model := fun _ => Except.ok ""

/-- If a string starts with `a ++ b`, it starts with `a`. -/
theorem pyStartsWith_of_append (s a b : String)
    (h : pyStartsWith s (a ++ b) = true) : pyStartsWith s a = true := by
  unfold pyStartsWith at h ⊢
  rw [String.data_append] at h
  rw [ List.isPrefixOf_iff_prefix] at h ⊢
  exact (List.prefix_append a.data b.data).trans h

/-- Every string starts with itself. -/
theorem pyStartsWith_self (s : String) : pyStartsWith s s = true := by
  unfold pyStartsWith
  exact List.isPrefixOf_iff_prefix.mpr (List.prefix_refl s.data)

/-- C3: after a coordinator message, the graph routes to the `tools`
node exactly when the message carries at least one requested action, and
to `END` (the round ends) exactly when it carries none. -/
theorem should_continue_routes (m : Message) :
    (should_continue m = "tools" ↔ 0 < m.tool_calls.length) ∧
    (should_continue m = END ↔ m.tool_calls.length = 0) := by
  cases h : m.tool_calls with
  | nil => simp [should_continue, h, END]
  | cons a l =>
    constructor
    · simp [should_continue, h]
    · simp [should_continue, h, END]

/-- C2: a dispatch of tool calls always yields one observation message per
request (`tool_node` is a total function: no exception escapes it), and any
request whose name is unregistered (the `tools_by_name` lookup raises
`KeyError`) or whose execution function raises (including argument
validation inside `invoke`) produces an observation whose content starts
with the error marker naming the failed action, correlated to the
request's id. -/
theorem tool_node_error_marker
    (tools_by_name : String → Option (String → Except String String))
    (tcs : List ToolCall) (i : Nat) (tc : ToolCall)
    (htc : tcs[i]? = some tc)
    (herr : tools_by_name tc.name = none ∨
      ∃ f e, tools_by_name tc.name = some f ∧ f tc.args = Except.error e) :
    (tool_node tools_by_name tcs).length = tcs.length ∧
    ∃ emsg, (tool_node tools_by_name tcs)[i]? = some
      { content := "Error executing tool '" ++ tc.name ++ "': " ++ emsg,
        name := tc.name, tool_call_id := tc.id } := by
  refine ⟨by simp [tool_node], ?_⟩
  rcases herr with hnone | ⟨f, e, hf, he⟩
  · refine ⟨keyErrorText tc.name, ?_⟩
    simp [tool_node, htc, hnone]
  · refine ⟨e, ?_⟩
    simp [tool_node, htc, hf, he]

/-- Witness for C2: a single request for the unregistered action
`"nope"` yields one observation with the error marker. -/
theorem tool_node_error_marker_witness :
    ((([⟨"nope", "", "id1"⟩] : List ToolCall)[0]? =
        some (⟨"nope", "", "id1"⟩ : ToolCall)) ∧
      ((fun _ => none) : String → Option (String → Except String String))
          "nope" = none) ∧
    (tool_node (fun _ => none) [⟨"nope", "", "id1"⟩]).length =
        ([⟨"nope", "", "id1"⟩] : List ToolCall).length ∧
    ∃ emsg, (tool_node (fun _ => none) [⟨"nope", "", "id1"⟩])[0]? = some
      { content := "Error executing tool '" ++ "nope" ++ "': " ++ emsg,
        name := "nope", tool_call_id := "id1" } :=
  ⟨⟨rfl, rfl⟩,
   tool_node_error_marker (fun _ => none) [⟨"nope", "", "id1"⟩] 0
     ⟨"nope", "", "id1"⟩ rfl (Or.inl rfl)⟩

/-- C4: in a round whose only coordinator response carries zero tool
calls, the history grows by exactly two messages (the user message and the
final coordinator message); and whenever a coordinator message does carry
tool calls, the loop appends the `tool_node` observations — one per
request, correlated positionally to exactly that request's id, with no
cross-assignment — before the next Reason step runs. -/
theorem round_history_growth
    (tools_by_name : String → Option (String → Except String String))
    (history : List Message) (u c c2 : String)
    (tcs tcs2 : List ToolCall) (rest : List (String × List ToolCall))
    (hne : tcs2 ≠ []) :
    runRound tools_by_name [(c, [])] history u =
      some (history ++ [Message.human u, Message.ai c []]) ∧
    (history ++ [Message.human u, Message.ai c []]).length =
      history.length + 2 ∧
    (tool_node tools_by_name tcs).map ToolMessage.tool_call_id =
      tcs.map ToolCall.id ∧
    driveLoop tools_by_name ((c2, tcs2) :: rest) history =
      driveLoop tools_by_name rest
        (history ++ [Message.ai c2 tcs2] ++
          (tool_node tools_by_name tcs2).map Message.toolMsg) := by
  refine ⟨?_, by simp, ?_, ?_⟩
  · simp [runRound, driveLoop, should_continue, Message.tool_calls, END]
  · simp [tool_node, List.map_map]
  · simp [driveLoop, should_continue, Message.tool_calls, hne]

/-- Witness for C4 at a round with one no-action response and a separate
coordinator message with one requested action. -/
theorem round_history_growth_witness :
    (([⟨"t", "", "1"⟩] : List ToolCall) ≠ []) ∧
    (runRound (fun _ => none) [("done", [])] [] "hi" =
      some ([] ++ [Message.human "hi", Message.ai "done" []]) ∧
    (([] : List Message) ++
        [Message.human "hi", Message.ai "done" []]).length =
      ([] : List Message).length + 2 ∧
    (tool_node (fun _ => none) []).map ToolMessage.tool_call_id =
      ([] : List ToolCall).map ToolCall.id ∧
    driveLoop (fun _ => none) [("go", [⟨"t", "", "1"⟩])] [] =
      driveLoop (fun _ => none) []
        ([] ++ [Message.ai "go" [⟨"t", "", "1"⟩]] ++
          (tool_node (fun _ => none) [⟨"t", "", "1"⟩]).map
            Message.toolMsg)) :=
  ⟨by simp,
   round_history_growth (fun _ => none) [] "hi" "done" "go" []
     [⟨"t", "", "1"⟩] [] (by simp)⟩

/-- The loop never exits while every oracle response keeps requesting an
action: with `n` such responses it performs `n` Reason and Act steps and is
still cycling. -/
theorem driveLoop_replicate_none
    (tools_by_name : String → Option (String → Except String String))
    (c : String) (tc : ToolCall) :
    ∀ (n : Nat) (history : List Message),
      driveLoop tools_by_name (List.replicate n (c, [tc])) history =
        none := by
  intro n
  induction n with
  | zero => intro history; simp [driveLoop]
  | succ k ih =>
    intro history
    rw [List.replicate_succ]
    simp only [driveLoop, should_continue, Message.tool_calls,
      List.isEmpty_cons, Bool.not_false, if_pos]
    exact ih _

/-- C5: the orchestration loop has no iteration cap — for every bound `k`
there is a sequence of coordinator responses, each requesting an action,
under which a round runs more than `k` Reason→Act cycles without stopping
or failing. -/
theorem loop_has_no_iteration_cap (k : Nat)
    (tools_by_name : String → Option (String → Except String String))
    (history : List Message) :
    ∃ oracle : List (String × List ToolCall),
      k < oracle.length ∧
      oracle.all (fun r => !r.2.isEmpty) = true ∧
      driveLoop tools_by_name oracle history = none := by
  refine ⟨List.replicate (k + 1) ("", [⟨"get_diff", "", "1"⟩]), ?_, ?_, ?_⟩
  · simp
  · simp [List.all_eq_true]
  · exact driveLoop_replicate_none tools_by_name "" ⟨"get_diff", "", "1"⟩
      (k + 1) history

/-- C1: whenever the canonicalized join of the repository root and a
requested path does not have the canonicalized root as a prefix, both
`read_file` implementations return the outside-the-repository rejection
string, and the only filesystem effect performed is the canonicalization
itself — in particular no read of the target happens. -/
theorem read_file_rejects_escaping_path (w : World)
    (repo_path file_path : String)
    (h : pyStartsWith (w.realpath (joinPath repo_path file_path))
        repo_path = false) :
    FileTools.read_file w repo_path file_path =
      ("Error: path '" ++ file_path ++ "' is outside the repository.",
       [Effect.realpathQuery (joinPath repo_path file_path)]) ∧
    (FileTools.read_file w repo_path file_path).2.all
      (fun e => !e.isRead) = true ∧
    LG.read_file w repo_path file_path =
      FileTools.read_file w repo_path file_path := by
  have h1 : pyStartsWith (w.realpath (joinPath repo_path file_path))
      (repo_path ++ os_sep) = false := by
    cases hb : pyStartsWith (w.realpath (joinPath repo_path file_path))
        (repo_path ++ os_sep) with
    | false => rfl
    | true =>
      rw [pyStartsWith_of_append _ _ _ hb] at h
      exact absurd h (by simp)
  have h2 : (w.realpath (joinPath repo_path file_path) != repo_path)
      = true := by
    rw [bne_iff_ne]
    intro he
    rw [he, pyStartsWith_self] at h
    exact absurd h (by simp)
  have hmain : FileTools.read_file w repo_path file_path =
      ("Error: path '" ++ file_path ++ "' is outside the repository.",
       [Effect.realpathQuery (joinPath repo_path file_path)]) := by
    simp [FileTools.read_file, h1, h2]
  exact ⟨hmain, by rw [hmain]; rfl, rfl⟩

/-- Witness for C1: a root of `/repo` and a traversal path whose
canonicalization lands at `/etc/passwd`. -/
theorem read_file_rejects_escaping_path_witness :
    pyStartsWith (wOutside.realpath (joinPath "/repo" "../secret"))
        "/repo" = false ∧
    (FileTools.read_file wOutside "/repo" "../secret" =
      ("Error: path '" ++ "../secret" ++ "' is outside the repository.",
       [Effect.realpathQuery (joinPath "/repo" "../secret")]) ∧
     (FileTools.read_file wOutside "/repo" "../secret").2.all
       (fun e => !e.isRead) = true ∧
     LG.read_file wOutside "/repo" "../secret" =
       FileTools.read_file wOutside "/repo" "../secret") :=
  ⟨rfl, read_file_rejects_escaping_path wOutside "/repo" "../secret" rfl⟩

/-- C6: for a path inside the repository that names an existing file,
`read_file` returns the size-rejection string (naming path and size) when
the file exceeds the 50 KiB ceiling and the replaced-decoding of the
contents otherwise; and the file's contents are actually read exactly when
the size is within the ceiling.  The LangGraph implementation behaves
identically. -/
theorem read_file_size_ceiling (w : World) (repo_path file_path : String)
    (hin : pyStartsWith (w.realpath (joinPath repo_path file_path))
        (repo_path ++ os_sep) = true ∨
      w.realpath (joinPath repo_path file_path) = repo_path)
    (hfile : w.isFile (w.realpath (joinPath repo_path file_path)) = true) :
    (FileTools.read_file w repo_path file_path).1 =
      (if w.getsize (w.realpath (joinPath repo_path file_path)) >
          MAX_FILE_SIZE then
        "Error: file '" ++ file_path ++ "' is too large (" ++
          toString (w.getsize (w.realpath (joinPath repo_path file_path))) ++
          " bytes, max " ++ toString MAX_FILE_SIZE ++ ")."
       else
        match w.readText (w.realpath (joinPath repo_path file_path)) with
        | Except.ok text => text
        | Except.error e => "Error reading file: " ++ e) ∧
    ((FileTools.read_file w repo_path file_path).2.any Effect.isRead =
      decide (w.getsize (w.realpath (joinPath repo_path file_path)) ≤
        MAX_FILE_SIZE)) ∧
    LG.read_file w repo_path file_path =
      FileTools.read_file w repo_path file_path := by
  have hguard : (!pyStartsWith (w.realpath (joinPath repo_path file_path))
      (repo_path ++ os_sep) &&
      (w.realpath (joinPath repo_path file_path) != repo_path)) = false := by
    rcases hin with hs | he
    · simp [hs]
    · simp [he]
  refine ⟨?_, ?_, rfl⟩ <;>
  · simp only [FileTools.read_file, hguard, hfile, Bool.false_eq_true,
      if_false, Bool.not_true]
    by_cases hs : w.getsize (w.realpath (joinPath repo_path file_path)) >
        MAX_FILE_SIZE
    · have hns : ¬ (w.getsize (w.realpath (joinPath repo_path file_path)) ≤
          MAX_FILE_SIZE) := Nat.not_le.mpr hs
      simp [hs, hns, Effect.isRead]
    · have hle : w.getsize (w.realpath (joinPath repo_path file_path)) ≤
          MAX_FILE_SIZE := Nat.not_lt.mp hs
      cases hr : w.readText (w.realpath (joinPath repo_path file_path)) <;>
        simp [hs, hle, hr, Effect.isRead]

/-- Witness for C6: an oversized (60000-byte) file inside the root. -/
theorem read_file_size_ceiling_witness :
    (pyStartsWith (wBig.realpath (joinPath "/repo" "big.txt"))
        ("/repo" ++ os_sep) = true ∨
      wBig.realpath (joinPath "/repo" "big.txt") = "/repo") ∧
    wBig.isFile (wBig.realpath (joinPath "/repo" "big.txt")) = true ∧
    ((FileTools.read_file wBig "/repo" "big.txt").1 =
      (if wBig.getsize (wBig.realpath (joinPath "/repo" "big.txt")) >
          MAX_FILE_SIZE then
        "Error: file '" ++ "big.txt" ++ "' is too large (" ++
          toString (wBig.getsize
            (wBig.realpath (joinPath "/repo" "big.txt"))) ++
          " bytes, max " ++ toString MAX_FILE_SIZE ++ ")."
       else
        match wBig.readText (wBig.realpath (joinPath "/repo" "big.txt")) with
        | Except.ok text => text
        | Except.error e => "Error reading file: " ++ e) ∧
    ((FileTools.read_file wBig "/repo" "big.txt").2.any Effect.isRead =
      decide (wBig.getsize (wBig.realpath (joinPath "/repo" "big.txt")) ≤
        MAX_FILE_SIZE)) ∧
    LG.read_file wBig "/repo" "big.txt" =
      FileTools.read_file wBig "/repo" "big.txt") :=
  ⟨Or.inl rfl, rfl,
   read_file_size_ceiling wBig "/repo" "big.txt" (Or.inl rfl) rfl⟩

/-- The diff tool performs exactly one git invocation, of `git diff`. -/
theorem get_diff_effects (w : World) (s t : String) :
    (GitTools.get_diff w s t).2 =
      [Effect.gitQuery ["git", "diff", t ++ "..." ++ s]] := by
  cases h : w.run ["git", "diff", t ++ "..." ++ s] <;>
    simp [GitTools.get_diff, h]

/-- The changed-files tool performs exactly one git invocation, of
`git diff --name-only`. -/
theorem get_changed_files_effects (w : World) (s t : String) :
    (GitTools.get_changed_files w s t).2 =
      [Effect.gitQuery ["git", "diff", "--name-only", t ++ "..." ++ s]] := by
  cases h : w.run ["git", "diff", "--name-only", t ++ "..." ++ s] <;>
    simp [GitTools.get_changed_files, h]

/-- The branch-listing tool performs exactly one git invocation, of
`git branch`. -/
theorem get_branches_effects (w : World) :
    (GitTools.get_branches w).2 =
      [Effect.gitQuery ["git", "branch", "-a", "--format=%(refname:short)"]] := by
  cases h : w.run ["git", "branch", "-a", "--format=%(refname:short)"] <;>
    simp [GitTools.get_branches, h]

/-- Every effect `read_file` performs is a filesystem query, never a
mutation. -/
theorem read_file_no_mutation (w : World) (repo_path p : String) :
    (FileTools.read_file w repo_path p).2.all
      (fun e => !e.mutatesRepo) = true := by
  simp only [FileTools.read_file]
  split
  · rfl
  · split
    · rfl
    · split
      · rfl
      · split <;> rfl

/-- C7: every registry action — diff, changed files, branch listing, file
read, file search, and the two specialist reviews — emits only repository
queries: no execution, on any arguments and against any world, performs a
mutating effect on the repository. -/
theorem actions_do_not_mutate_repo (w : World)
    (repo_path s t p fn ctx : String) :
    (((GitTools.get_diff w s t).2 ++ (GitTools.get_changed_files w s t).2 ++
      (GitTools.get_branches w).2 ++ (FileTools.read_file w repo_path p).2 ++
      (FileTools.find_file w repo_path fn).2 ++
      (LG.quality_review w ctx).2 ++ (LG.security_review w ctx).2).all
        (fun e => !e.mutatesRepo)) = true := by
  simp only [List.all_append, Bool.and_eq_true]
  refine ⟨⟨⟨⟨⟨⟨?_, ?_⟩, ?_⟩, ?_⟩, ?_⟩, ?_⟩, ?_⟩
  · rw [get_diff_effects]; rfl
  · rw [get_changed_files_effects]; rfl
  · rw [get_branches_effects]; rfl
  · exact read_file_no_mutation w repo_path p
  · rfl
  · cases h : w.model [LMsg.system QUALITY_REVIEWER_SYSTEM_PROMPT,
      LMsg.human ctx] <;>
      simp [LG.quality_review, h, Effect.mutatesRepo]
  · cases h : w.model [LMsg.system SECURITY_REVIEWER_SYSTEM_PROMPT,
      LMsg.human ctx] <;>
      simp [LG.security_review, h, Effect.mutatesRepo]

/-- C8: with a clean git exit, `get_diff` substitutes its no-differences
message exactly when the diff output strips to empty (otherwise returning
the output unchanged), and `get_changed_files` substitutes its no-files
message exactly when the raw output is the empty string (otherwise
returning the output unchanged). -/
theorem no_difference_messages (w : World) (s t out nout : String)
    (hd : w.run ["git", "diff", t ++ "..." ++ s] = Except.ok out)
    (hc : w.run ["git", "diff", "--name-only", t ++ "..." ++ s] =
      Except.ok nout) :
    (GitTools.get_diff w s t).1 =
      (if out.trim = "" then "No differences found between branches."
       else out) ∧
    (GitTools.get_changed_files w s t).1 =
      (if nout = "" then "No files changed." else nout) := by
  constructor
  · simp [GitTools.get_diff, hd]
  · simp [GitTools.get_changed_files, hc]

/-- Witness for C8: a git oracle whose diff output between `feat` and
`main` is empty both with and without `--name-only`. -/
theorem no_difference_messages_witness :
    wSame.run ["git", "diff", "main" ++ "..." ++ "feat"] = Except.ok "" ∧
    wSame.run ["git", "diff", "--name-only", "main" ++ "..." ++ "feat"] =
      Except.ok "" ∧
    ((GitTools.get_diff wSame "feat" "main").1 =
      (if ("" : String).trim = "" then
        "No differences found between branches." else "") ∧
    (GitTools.get_changed_files wSame "feat" "main").1 =
      (if ("" : String) = "" then "No files changed." else "")) :=
  ⟨rfl, rfl, no_difference_messages wSame "feat" "main" "" "" rfl rfl⟩

/-- C9: each specialist review issues exactly one model call, consisting of
its fixed role system prompt and the given context as the sole human input;
and its textual result is the model's answer on success or a caught-error
string on failure — the reviewer functions are total, so no model failure
escapes them. -/
theorem specialist_one_call_catches_errors (w : World) (ctx : String) :
    (LG.quality_review w ctx).2 =
      [Effect.modelCall [LMsg.system QUALITY_REVIEWER_SYSTEM_PROMPT,
        LMsg.human ctx]] ∧
    (LG.security_review w ctx).2 =
      [Effect.modelCall [LMsg.system SECURITY_REVIEWER_SYSTEM_PROMPT,
        LMsg.human ctx]] ∧
    (LG.quality_review w ctx).1 =
      (match w.model [LMsg.system QUALITY_REVIEWER_SYSTEM_PROMPT,
          LMsg.human ctx] with
        | Except.ok r => r
        | Except.error e => "Error during quality review: " ++ e) ∧
    (LG.security_review w ctx).1 =
      (match w.model [LMsg.system SECURITY_REVIEWER_SYSTEM_PROMPT,
          LMsg.human ctx] with
        | Except.ok r => r
        | Except.error e => "Error during security review: " ++ e) := by
  refine ⟨?_, ?_, ?_, ?_⟩
  · cases h : w.model [LMsg.system QUALITY_REVIEWER_SYSTEM_PROMPT,
      LMsg.human ctx] <;> simp [LG.quality_review, h]
  · cases h : w.model [LMsg.system SECURITY_REVIEWER_SYSTEM_PROMPT,
      LMsg.human ctx] <;> simp [LG.security_review, h]
  · cases h : w.model [LMsg.system QUALITY_REVIEWER_SYSTEM_PROMPT,
      LMsg.human ctx] <;> simp [LG.quality_review, h]
  · cases h : w.model [LMsg.system SECURITY_REVIEWER_SYSTEM_PROMPT,
      LMsg.human ctx] <;> simp [LG.security_review, h]

/-- C10: the two independently written file accessors agree extensionally:
on every world, root and input, the agno `FileTools.read_file` and the
LangGraph closure `read_file` return the same result and effects, and
likewise the two `find_file`s. -/
theorem file_accessor_impls_agree (w : World) (repo_path p fn : String) :
    FileTools.read_file w repo_path p = LG.read_file w repo_path p ∧
    FileTools.find_file w repo_path fn = LG.find_file w repo_path fn :=
  ⟨rfl, rfl⟩
